import Mathlib

/-!
Shallow embedding of `src/chatbot/infrastructure_parser.py` (class
`InfrastructureParser`): the format classifier `detect_file_type`, the
extractor `parse_content` with its six format-specific sub-parsers, and the
prompt composer `generate_analysis_prompt`.

Modelling conventions:
* Python strings are Lean `String`; the Python string operations used by the
  source (`in`, `split`, `strip`, `lower`, `startswith`, `endswith`,
  `replace`) are modelled over ASCII text (the source's indicator sets and
  column parsing are all ASCII).
* The third-party libraries `yaml.safe_load` and `json.loads` are not part of
  this repository; they enter the model as an explicit parameter (`PyLibs`)
  returning either a parsed value or an exception message.
* Python values produced by those parsers are modelled by `PyValue`
  (floats are not needed by any claim and are omitted).
* A Python `set` accumulated in a loop and then listed is modelled as an
  insertion-ordered duplicate-free list; the claims about `aws_services` are
  membership claims, which this represents exactly.
* Python exceptions are modelled with `Except String`; every handler in the
  source is an explicit `match` on such a value, so "never raises" is the
  totality of the top-level Lean function.
-/

/-! Python string primitives -/

/-- Whitespace class of Python `str.strip` / `str.split()` (ASCII part). -/
def isPyWs (c : Char) : Bool :=
  c == ' ' || c == '\t' || c == '\n' || c == '\r' || c == '\x0b' || c == '\x0c'

/-- Tests that `lit` is a literal prefix of `l`. -/
def listIsPref : List Char → List Char → Bool
  | [], _ => true
  | _ :: _, [] => false
  | a :: as, b :: bs => a == b && listIsPref as bs

/-- Tests that `needle` occurs as a contiguous run inside `hay`. -/
def listHasSub (needle : List Char) : List Char → Bool
  | [] => listIsPref needle []
  | b :: bs => listIsPref needle (b :: bs) || listHasSub needle bs

/-- Python `needle in hay` on strings. -/
def hasSub (hay needle : String) : Bool := listHasSub needle.data hay.data

/-- Python `s.startswith(pre)`. -/
def pyStartsWith (s pre : String) : Bool := listIsPref pre.data s.data

/-- Python `s.endswith(suf)`. -/
def pyEndsWith (s suf : String) : Bool := listIsPref suf.data.reverse s.data.reverse

/-- Python `s.strip()` (ASCII whitespace). -/
def pyStrip (s : String) : String :=
  ⟨((s.data.dropWhile isPyWs).reverse.dropWhile isPyWs).reverse⟩

/-- Strip the literal `lit` from the front of `l`; `none` when `lit` is not
a prefix. -/
def dropLit : List Char → List Char → Option (List Char)
  | [], rest => some rest
  | _ :: _, [] => none
  | a :: as, b :: bs => if a == b then dropLit as bs else none

/-- Core of Python `s.split(sep)` for a non-empty `sep`: left-to-right,
non-overlapping. The fuel only serves structural recursion; every recursive
call strictly shortens the character list, so `length + 1` fuel is never
exhausted. -/
def pySplitGo (sep : List Char) : Nat → List Char → List Char → List (List Char)
  | 0, cur, _ => [cur.reverse]
  | _ + 1, cur, [] => [cur.reverse]
  | fuel + 1, cur, c :: rest =>
    match dropLit sep (c :: rest) with
    | some rem => cur.reverse :: pySplitGo sep fuel [] rem
    | Option.none => pySplitGo sep fuel (c :: cur) rest

/-- Python `s.split(sep)` (the source only calls it with non-empty `sep`). -/
def pySplit (sep s : String) : List String :=
  if sep.data.isEmpty then [s]
  else (pySplitGo sep.data (s.data.length + 1) [] s.data).map (fun l => ⟨l⟩)

/-- Core of Python `s.replace(pat, rep)` for non-empty `pat`: replaces every
non-overlapping occurrence, left to right. Fuel as in `pySplitGo`. -/
def pyReplaceGo (pat rep : List Char) : Nat → List Char → List Char
  | 0, l => l
  | _ + 1, [] => []
  | fuel + 1, c :: rest =>
    match dropLit pat (c :: rest) with
    | some rem => rep ++ pyReplaceGo pat rep fuel rem
    | Option.none => c :: pyReplaceGo pat rep fuel rest

/-- Python `s.replace(pat, rep)` (the source only calls it with non-empty
`pat`). -/
def pyReplace (s pat rep : String) : String :=
  if pat.data.isEmpty then s
  else ⟨pyReplaceGo pat.data rep.data (s.data.length + 1) s.data⟩

/-- Python `s.lower()` (ASCII). -/
def pyLower (s : String) : String := ⟨s.data.map Char.toLower⟩

/-- Counts maximal non-whitespace runs: Python `len(s.split())`.
The flag records whether the previous character was inside a word. -/
def wordCountGo : Bool → List Char → Nat
  | _, [] => 0
  | inWord, c :: rest =>
    if isPyWs c then wordCountGo false rest
    else (if inWord then 0 else 1) + wordCountGo true rest

/-- Python `len(s.split())`. -/
def pyWordCount (s : String) : Nat := wordCountGo false s.data

/-- Python `list(set)` building block: add to an insertion-ordered
duplicate-free list. -/
def setAdd (s : List String) (x : String) : List String :=
  if s.contains x then s else s ++ [x]

/-! Data model -/

/-- Values produced by the YAML/JSON libraries (`parsed_data`). Dicts are
insertion-ordered association lists with string keys, which covers every
shape the claims exercise. -/
inductive PyValue where
  | str (s : String)
  | int (n : Int)
  | bool (b : Bool)
  | none
  | list (xs : List PyValue)
  | dict (kvs : List (String × PyValue))

/-- Python name of the type of a value, as used in CPython error messages. -/
def pyTypeName : PyValue → String
  | .str _ => "str"
  | .int _ => "int"
  | .bool _ => "bool"
  | .none => "NoneType"
  | .list _ => "list"
  | .dict _ => "dict"

structure SecurityGroup where
  id : String
  name : String
  deriving DecidableEq, Repr

structure Subnet where
  id : String
  cidr : String
  deriving DecidableEq, Repr

/-- The `result` dictionary built by `parse_content`. Keys that the initial
dictionary lacks and that only some branches add (`parameters`, `outputs`,
`variables`, `constructs`, `error`) are `Option`s, `none` meaning the key is
absent. -/
structure Record where
  file_type : String
  filename : String
  content : String
  parsed_data : PyValue
  analysis_summary : String
  aws_services : List String
  security_groups : List SecurityGroup
  subnets : List Subnet
  resources : List String
  parameters : Option (List String)
  outputs : Option (List String)
  «variables» : Option (List String)
  constructs : Option (List String)
  error : Option String

/-- The external YAML/JSON parsing libraries (`yaml.safe_load`,
`json.loads`): not code of this repository, supplied as a parameter.
`.error m` models the library raising an exception whose `str` is `m`. -/
structure PyLibs where
  yamlLoad : String → Except String PyValue
  jsonLoads : String → Except String PyValue

/-! FormatClassifier (`detect_file_type` and helpers) -/

/-- Python `'.' + filename.split('.')[-1].lower() if '.' in filename else ''`. -/
def getExtension (filename : String) : String :=
  if hasSub filename "." then "." ++ pyLower ((pySplit "." filename).getLastD "")
  else ""

def cf_indicators : List String :=
  ["AWSTemplateFormatVersion", "Resources:", "Parameters:", "Outputs:",
   "Mappings:", "Conditions:", "Transform:", "AWS::",
   "\"AWSTemplateFormatVersion\"", "\"Resources\""]

def is_cloudformation (content : String) : Bool :=
  cf_indicators.any (fun i => hasSub content i)

def tf_indicators : List String :=
  ["resource \"aws_", "provider \"aws\"", "terraform \x7b", "variable \"",
   "output \"", "data \"aws_", "locals \x7b", "module \""]

def is_terraform (content : String) : Bool :=
  tf_indicators.any (fun i => hasSub content i)

def cdk_indicators : List String :=
  ["@aws-cdk/", "aws-cdk-lib", "import * as cdk", "from aws_cdk",
   "import aws_cdk", "Stack", "Construct", "new cdk.",
   "class.*Stack.*cdk.Stack"]

def is_cdk (content extension : String) : Bool :=
  let is_code_file := [".ts", ".js", ".py"].contains extension
  let has_cdk_content := cdk_indicators.any (fun i => hasSub content i)
  is_code_file && has_cdk_content

def cli_indicators : List String :=
  ["VPCS\t", "SUBNETS\t", "INSTANCES\t", "SECURITYGROUPS\t", "ROUTETABLES\t",
   "INTERNETGATEWAYS\t", "NATGATEWAYS\t", "LOADBALANCERS\t",
   "VPNCONNECTIONS\t", "ADDRESSES\t", "CLUSTERS\t"]

def is_aws_cli_output (content : String) : Bool :=
  cli_indicators.any (fun i => hasSub content i)

def detect_file_type (content filename : String) : String :=
  let extension := getExtension filename
  if is_cloudformation content then "cloudformation"
  else if is_terraform content then "terraform"
  else if is_cdk content extension then "cdk"
  else if is_aws_cli_output content then "aws_cli_output"
  else if [".yaml", ".yml"].contains extension then "yaml"
  else if extension == ".json" then "json"
  else "text"


/-! Regex matchers

The source uses `re.findall` with five fixed patterns. In every pattern each
greedy character-class run (`\s+`, `\w+`, `[^"]+`) is followed by a character
outside its class, so greedy matching with no backtracking coincides with
Python `re`. `\w`/`\s` are modelled over ASCII. -/

/-- One-or-more characters satisfying `p` (greedy): the matched run and the
remainder, failing when the first character does not satisfy `p`. -/
def reqPlus (p : Char → Bool) : List Char → Option (List Char × List Char)
  | [] => Option.none
  | c :: rest =>
    if p c then some (c :: rest.takeWhile p, rest.dropWhile p) else Option.none

/-- Class `\w` (ASCII part). -/
def isWordChar (c : Char) : Bool := c.isAlphanum || c == '_'

def dquote : Char := '"'

/-- Pattern `resource\s+"([^"]+)"\s+"([^"]+)"` matched at the head of `l`. -/
def tfResourceMatch (l : List Char) : Option ((String × String) × List Char) :=
  match dropLit "resource".data l with
  | Option.none => Option.none
  | some r1 =>
  match reqPlus isPyWs r1 with
  | Option.none => Option.none
  | some (_, r2) =>
  match dropLit [dquote] r2 with
  | Option.none => Option.none
  | some r3 =>
  match reqPlus (fun c => c != dquote) r3 with
  | Option.none => Option.none
  | some (ty, r4) =>
  match dropLit [dquote] r4 with
  | Option.none => Option.none
  | some r5 =>
  match reqPlus isPyWs r5 with
  | Option.none => Option.none
  | some (_, r6) =>
  match dropLit [dquote] r6 with
  | Option.none => Option.none
  | some r7 =>
  match reqPlus (fun c => c != dquote) r7 with
  | Option.none => Option.none
  | some (nm, r8) =>
  match dropLit [dquote] r8 with
  | Option.none => Option.none
  | some r9 => some ((⟨ty⟩, ⟨nm⟩), r9)

/-- Pattern `KEYWORD\s+"([^"]+)"` (used for `variable` and `output`). -/
def tfNamedBlockMatch (keyword : List Char) (l : List Char) :
    Option (String × List Char) :=
  match dropLit keyword l with
  | Option.none => Option.none
  | some r1 =>
  match reqPlus isPyWs r1 with
  | Option.none => Option.none
  | some (_, r2) =>
  match dropLit [dquote] r2 with
  | Option.none => Option.none
  | some r3 =>
  match reqPlus (fun c => c != dquote) r3 with
  | Option.none => Option.none
  | some (nm, r4) =>
  match dropLit [dquote] r4 with
  | Option.none => Option.none
  | some r5 => some (⟨nm⟩, r5)

/-- Pattern `new\s+aws-\w+\.(\w+)` (TypeScript/JavaScript CDK construct pattern). -/
def cdkNewMatch (l : List Char) : Option (String × List Char) :=
  match dropLit "new".data l with
  | Option.none => Option.none
  | some r1 =>
  match reqPlus isPyWs r1 with
  | Option.none => Option.none
  | some (_, r2) =>
  match dropLit "aws-".data r2 with
  | Option.none => Option.none
  | some r3 =>
  match reqPlus isWordChar r3 with
  | Option.none => Option.none
  | some (_, r4) =>
  match dropLit ['.'] r4 with
  | Option.none => Option.none
  | some r5 =>
  match reqPlus isWordChar r5 with
  | Option.none => Option.none
  | some (nm, r6) => some (⟨nm⟩, r6)

/-- Pattern `aws_\w+\.(\w+)\(` (Python CDK construct pattern). -/
def cdkPyMatch (l : List Char) : Option (String × List Char) :=
  match dropLit "aws_".data l with
  | Option.none => Option.none
  | some r1 =>
  match reqPlus isWordChar r1 with
  | Option.none => Option.none
  | some (_, r2) =>
  match dropLit ['.'] r2 with
  | Option.none => Option.none
  | some r3 =>
  match reqPlus isWordChar r3 with
  | Option.none => Option.none
  | some (nm, r4) =>
  match dropLit ['('] r4 with
  | Option.none => Option.none
  | some r5 => some (⟨nm⟩, r5)

/-- The `re.findall` scan: try the matcher at every position, left to right; on
a match continue right after the matched span. The fuel only serves
structural recursion: each matcher above consumes at least one character on
success, so `length + 1` fuel is never exhausted. -/
def reFindAllGo (matcher : List Char → Option (α × List Char)) :
    Nat → List Char → List α
  | 0, _ => []
  | fuel + 1, l =>
    match matcher l with
    | some (a, rem) => a :: reFindAllGo matcher fuel rem
    | Option.none =>
      match l with
      | [] => []
      | _ :: rest => reFindAllGo matcher fuel rest

def reFindAll (matcher : List Char → Option (α × List Char)) (s : String) :
    List α :=
  reFindAllGo matcher (s.data.length + 1) s.data

/-! ContentExtractor (`parse_content` and the six sub-parsers) -/

/-- The `result` dictionary as initialized at the top of `parse_content`. -/
def initRecord (file_type filename content : String) : Record :=
  { file_type := file_type, filename := filename, content := content,
    parsed_data := .dict [], analysis_summary := "", aws_services := [],
    security_groups := [], subnets := [], resources := [],
    parameters := Option.none, outputs := Option.none,
    «variables» := Option.none, constructs := Option.none,
    error := Option.none }

/-- Python dict access on the association-list model: the value of the
first binding of `k` (dict keys are unique, so first = only). -/
def pyDictLookup (k : String) : List (String × PyValue) → Option PyValue
  | [] => Option.none
  | (k2, v) :: rest => if k == k2 then some v else pyDictLookup k rest

/-- Python `key in value` (dynamic `in`: key containment for dicts, element
equality for lists, substring for strings, `TypeError` otherwise). -/
def pyInDyn (k : String) : PyValue → Except String Bool
  | .dict kvs => .ok (kvs.any (fun p => p.1 == k))
  | .list xs => .ok (xs.any (fun v => match v with | .str s => s == k | _ => false))
  | .str s => .ok (hasSub s k)
  | v => .error ("argument of type \x27" ++ pyTypeName v ++ "\x27 is not iterable")

/-- Python `value[k]` for a string key `k`. -/
def pySubscript (v : PyValue) (k : String) : Except String PyValue :=
  match v with
  | .dict kvs =>
    match pyDictLookup k kvs with
    | some x => .ok x
    | Option.none => .error ("KeyError: \x27" ++ k ++ "\x27")
  | .str _ => .error "string indices must be integers"
  | .list _ => .error "list indices must be integers or slices, not str"
  | v => .error ("\x27" ++ pyTypeName v ++ "\x27 object is not subscriptable")

/-- Python `list(value.keys())` (dict only; `AttributeError` otherwise). -/
def pyKeys (v : PyValue) : Except String (List String) :=
  match v with
  | .dict kvs => .ok (kvs.map (fun p => p.1))
  | v => .error ("\x27" ++ pyTypeName v ++ "\x27 object has no attribute \x27keys\x27")

/-- Python `value.items()` (dict only). -/
def pyItems (v : PyValue) : Except String (List (String × PyValue)) :=
  match v with
  | .dict kvs => .ok kvs
  | v => .error ("\x27" ++ pyTypeName v ++ "\x27 object has no attribute \x27items\x27")

/-- Python `value.get(k, dflt)` (dict only; `AttributeError` otherwise). -/
def pyGet (v : PyValue) (k : String) (dflt : PyValue) : Except String PyValue :=
  match v with
  | .dict kvs => .ok ((pyDictLookup k kvs).getD dflt)
  | v => .error ("\x27" ++ pyTypeName v ++ "\x27 object has no attribute \x27get\x27")

def cfMsg (e : String) : String := "Failed to parse CloudFormation: " ++ e

/-- Python `try: parsed = yaml.safe_load(content) except: parsed = json.loads(content)`
inside `_parse_cloudformation`; a failure of the JSON fallback propagates to
the enclosing handler. -/
def cfTryLoad (P : PyLibs) (content : String) : Except String PyValue :=
  match P.yamlLoad content with
  | .ok v => .ok v
  | .error _ => P.jsonLoads content

/-- Python `resource_type.split('::')[1]`. The caller's `startswith('AWS::')` guard
guarantees index 1 exists, so the default is unreachable. -/
def cfServiceOf (t : String) : String := (pySplit "::" t).getD 1 ""

/-- The `aws_services` loop of `_parse_cloudformation`:
`resource_config.get('Type', '')`, then `startswith('AWS::')`, then
`split('::')[1]` into the set. A non-dict resource config or a non-string
`Type` value raises, aborting the loop. -/
def cfCollectServices : List (String × PyValue) → List String →
    Except String (List String)
  | [], acc => .ok acc
  | (_, cfg) :: rest, acc =>
    match pyGet cfg "Type" (.str "") with
    | .error e => .error e
    | .ok (.str ts) =>
      if pyStartsWith ts "AWS::" then
        cfCollectServices rest (setAdd acc (cfServiceOf ts))
      else cfCollectServices rest acc
    | .ok other =>
      .error ("\x27" ++ pyTypeName other ++ "\x27 object has no attribute \x27startswith\x27")

/-- Python `list(parsed.get(k, {}).keys())`. -/
def pyGetKeys (parsed : PyValue) (k : String) : Except String (List String) :=
  match pyGet parsed k (.dict []) with
  | .error e => .error e
  | .ok v => pyKeys v

def cfSummary (r : Record) : String :=
  "CloudFormation template with " ++ toString r.resources.length ++
    " resources using " ++ toString r.aws_services.length ++ " AWS services"

/-- Tail of `_parse_cloudformation`: `parameters`, `outputs`, summary. Order
of record updates mirrors the order of the Python dict mutations, so fields
assigned before a failing step survive into the error record. -/
def cfTail (parsed : PyValue) (r : Record) : Record :=
  match pyGetKeys parsed "Parameters" with
  | .error e => { r with error := some (cfMsg e) }
  | .ok params =>
    let r := { r with parameters := some params }
    match pyGetKeys parsed "Outputs" with
    | .error e => { r with error := some (cfMsg e) }
    | .ok outs =>
      let r := { r with outputs := some outs }
      { r with analysis_summary := cfSummary r }

/-- Model of `_parse_cloudformation`. Every failure of a step lands in the
`except Exception` handler, which sets `error` on the record as mutated so
far. -/
def parse_cloudformation (P : PyLibs) (content : String) (r : Record) : Record :=
  match cfTryLoad P content with
  | .error e => { r with error := some (cfMsg e) }
  | .ok parsed =>
    let r := { r with parsed_data := parsed }
    match pyInDyn "Resources" parsed with
    | .error e => { r with error := some (cfMsg e) }
    | .ok hasResources =>
      if hasResources then
        match pySubscript parsed "Resources" with
        | .error e => { r with error := some (cfMsg e) }
        | .ok resv =>
          match pyKeys resv with
          | .error e => { r with error := some (cfMsg e) }
          | .ok keys =>
            let r := { r with resources := keys }
            match pyItems resv with
            | .error e => { r with error := some (cfMsg e) }
            | .ok items =>
              match cfCollectServices items [] with
              | .error e => { r with error := some (cfMsg e) }
              | .ok svcs => cfTail parsed { r with aws_services := svcs }
      else cfTail parsed r

/-- Python `resource_type.replace('aws_', '').split('_')[0]`: note `replace`
removes every occurrence of `aws_`, not only the prefix. -/
def tfServiceOf (resource_type : String) : String :=
  (pySplit "_" (pyReplace resource_type "aws_" "")).getD 0 ""

def tfSvcStep (acc : List String) (p : String × String) : List String :=
  if pyStartsWith p.1 "aws_" then setAdd acc (tfServiceOf p.1) else acc

def tfSummary (r : Record) : String :=
  "Terraform configuration with " ++ toString r.resources.length ++
    " resources using " ++ toString r.aws_services.length ++ " AWS services"

/-- Model of `_parse_terraform`. -/
def parse_terraform (content : String) (r : Record) : Record :=
  let resources : List (String × String) := reFindAll tfResourceMatch content
  let r : Record := { r with resources := resources.map (fun p => p.1 ++ "." ++ p.2) }
  let r : Record := { r with aws_services := resources.foldl tfSvcStep [] }
  let r : Record :=
    { r with «variables» := some (reFindAll (tfNamedBlockMatch "variable".data) content),
             outputs := some (reFindAll (tfNamedBlockMatch "output".data) content) }
  { r with analysis_summary := tfSummary r }

def cdk_service_mapping : List (String × String) :=
  [("Bucket", "s3"), ("Function", "lambda"), ("Table", "dynamodb"),
   ("Vpc", "ec2"), ("Instance", "ec2"), ("Cluster", "ecs"),
   ("LoadBalancer", "elbv2")]

/-- Inner loop of `_parse_cdk`: `construct_type.lower() in construct.lower()`
over the fixed mapping, in dict order. -/
def cdkSvcStep (acc : List String) (construct : String) : List String :=
  cdk_service_mapping.foldl
    (fun a p => if hasSub (pyLower construct) (pyLower p.1) then setAdd a p.2 else a)
    acc

/-- Model of `_parse_cdk`. -/
def parse_cdk (content : String) (r : Record) : Record :=
  let constructs := reFindAll cdkNewMatch content ++ reFindAll cdkPyMatch content
  let r := { r with constructs := some constructs }
  let r := { r with aws_services := constructs.foldl cdkSvcStep [] }
  { r with analysis_summary := ("CDK code with " ++ toString constructs.length ++
      " constructs using " ++ toString r.aws_services.length ++ " AWS services") }

/-- State of the AWS CLI output scan: the lowercased current section label
plus the accumulators. -/
structure CliState where
  currentSection : Option String
  services : List String
  security_groups : List SecurityGroup
  subnets : List Subnet

def cliInit : CliState := ⟨Option.none, [], [], []⟩

/-- Per-line processing of `_parse_aws_cli_output` under section `cs`
(the `if/elif` chain over the section label, first match wins). -/
def cliProcess (st : CliState) (cs line : String) : CliState :=
  if hasSub cs "vpc" then { st with services := setAdd st.services "VPC" }
  else if hasSub cs "subnet" then
    let st := { st with services := setAdd st.services "VPC" }
    if pyStartsWith line "SUBNETS" then
      let parts := pySplit "\t" line
      if parts.length > 10 then
        { st with subnets := st.subnets ++ [⟨parts.getD 12 "unknown", parts.getD 5 "unknown"⟩] }
      else st
    else st
  else if hasSub cs "security" then
    let st := { st with services := setAdd st.services "EC2" }
    if pyStartsWith line "SECURITYGROUPS" then
      let parts := pySplit "\t" line
      if parts.length > 2 then
        { st with security_groups := st.security_groups ++ [⟨parts.getD 1 "unknown", parts.getD 2 "unknown"⟩] }
      else st
    else st
  else if hasSub cs "ec2" || hasSub cs "instance" then
    { st with services := setAdd st.services "EC2" }
  else if hasSub cs "rds" || hasSub cs "redshift" then
    { st with services := setAdd st.services (if hasSub cs "rds" then "RDS" else "Redshift") }
  else if hasSub cs "internet" then { st with services := setAdd st.services "Internet Gateway" }
  else if hasSub cs "nat" then { st with services := setAdd st.services "NAT Gateway" }
  else if hasSub cs "vpn" then { st with services := setAdd st.services "VPN" }
  else if hasSub cs "route" then { st with services := setAdd st.services "Route Tables" }
  else if hasSub cs "elastic" then { st with services := setAdd st.services "Elastic IP" }
  else st

/-- One loop iteration of `_parse_aws_cli_output`: strip the line, detect a
`=== label ===` section header, skip blank lines, otherwise process under
the current section (lines before the first header are ignored). -/
def cliStep (st : CliState) (rawLine : String) : CliState :=
  let line := pyStrip rawLine
  if pyStartsWith line "=== " && pyEndsWith line " ===" then
    { st with currentSection := some (pyLower (pyReplace (pyReplace line "=== " "") " ===" "")) }
  else if line == "" then st
  else
    match st.currentSection with
    | some cs => cliProcess st cs line
    | Option.none => st

def cliRun (st : CliState) (lines : List String) : CliState :=
  lines.foldl cliStep st

/-- Model of `_parse_aws_cli_output`: fold the line scan over
`content.strip().split('\n')`, then copy the accumulators into the record. -/
def parse_aws_cli_output (content : String) (r : Record) : Record :=
  let fin := cliRun cliInit (pySplit "\n" (pyStrip content))
  { r with aws_services := fin.services,
           security_groups := fin.security_groups,
           subnets := fin.subnets,
           resources := fin.services.map (fun s => s ++ " resources"),
           analysis_summary := ("AWS CLI output showing " ++
             toString fin.services.length ++ " AWS services with detailed configuration") }

/-- Model of `_parse_yaml`. -/
def parse_yaml (P : PyLibs) (content : String) (r : Record) : Record :=
  match P.yamlLoad content with
  | .ok parsed =>
    { r with parsed_data := parsed, analysis_summary := "YAML configuration file" }
  | .error e => { r with error := some ("Failed to parse YAML: " ++ e) }

/-- Model of `_parse_json`. -/
def parse_json (P : PyLibs) (content : String) (r : Record) : Record :=
  match P.jsonLoads content with
  | .ok parsed =>
    { r with parsed_data := parsed, analysis_summary := "JSON configuration file" }
  | .error e => { r with error := some ("Failed to parse JSON: " ++ e) }

/-- Model of `_parse_text`. -/
def parse_text (content : String) (r : Record) : Record :=
  { r with analysis_summary := ("Text file with " ++
      toString (pyWordCount content) ++ " words") }

/-- Model of `parse_content`: classify, initialize the record, dispatch. The
enclosing `try/except` of the source is unreachable dead code: every
sub-parser is total because each handles its own failures, so it is not
represented by a branch here. -/
def parse_content (P : PyLibs) (content filename : String) : Record :=
  let file_type := detect_file_type content filename
  let r := initRecord file_type filename content
  if file_type == "cloudformation" then parse_cloudformation P content r
  else if file_type == "terraform" then parse_terraform content r
  else if file_type == "cdk" then parse_cdk content r
  else if file_type == "aws_cli_output" then parse_aws_cli_output content r
  else if file_type == "yaml" || file_type == "yml" then parse_yaml P content r
  else if file_type == "json" then parse_json P content r
  else parse_text content r

/-! PromptComposer (`generate_analysis_prompt`)

The source reads only `parsed_data.get('file_type', 'unknown')` and
`parsed_data.get('content', '')`; on records built by `parse_content` both
keys are always present, so the model projects the two fields. Block texts
are transcribed byte-for-byte from the triple-quoted literals, including
the indentation-only lines and the trailing double space after
`dependencies`. -/

/-- The part of the f-string `base_prompt` before `{content}`, given
`file_type`. -/
def promptPre (file_type : String) : String :=
  "\n        Analyze the following " ++ file_type ++
    " infrastructure configuration and provide a comprehensive assessment:\n\n        File Type: " ++
    file_type ++ "\n        Content:\n        ```\n        "

/-- The part of the f-string `base_prompt` after `{content}`. -/
def promptFence : String := "\n        ```\n        "

def cliPromptBlock : String :=
  "\n            This is AWS CLI output showing the current state of AWS infrastructure. Please provide:\n            \n            1. **Infrastructure Overview**: Summarize the overall architecture\n            2. **Network Architecture**: Analyze VPC, subnets, routing, and connectivity\n            3. **Security Analysis**: Review security groups, NACLs, and access patterns\n            4. **Resource Inventory**: List all AWS resources and their configurations\n            5. **Cost Implications**: Estimate costs and identify optimization opportunities\n            6. **Security Recommendations**: Suggest security improvements\n            7. **Architecture Best Practices**: Compare against AWS Well-Architected principles\n            8. **Operational Considerations**: Backup, monitoring, and maintenance recommendations\n            \n            Focus on:\n            - Current resource configurations and relationships\n            - Security posture and potential vulnerabilities\n            - Cost optimization opportunities\n            - Compliance with AWS best practices\n            - Migration and modernization recommendations\n            "

def cfPromptBlock : String :=
  "\n            This is a CloudFormation template. Please provide:\n            \n            1. **Template Analysis**: Overview of the template structure and purpose\n            2. **Resource Dependencies**: Map resource relationships and dependencies  \n            3. **Security Configuration**: Analyze IAM roles, security groups, and encryption\n            4. **Best Practices Review**: Compare against CloudFormation best practices\n            5. **Cost Estimation**: Estimate deployment costs\n            6. **Improvement Recommendations**: Suggest optimizations and enhancements\n            "

def tfPromptBlock : String :=
  "\n            This is a Terraform configuration. Please provide:\n            \n            1. **Configuration Analysis**: Overview of the Terraform setup\n            2. **Resource Mapping**: List all resources and their relationships\n            3. **State Management**: Comment on state management approach\n            4. **Security Review**: Analyze security configurations\n            5. **Best Practices**: Compare against Terraform and AWS best practices\n            6. **Optimization Suggestions**: Recommend improvements\n            "

def cdkPromptBlock : String :=
  "\n            This is AWS CDK code. Please provide:\n            \n            1. **Code Analysis**: Overview of the CDK implementation\n            2. **Construct Usage**: Analyze CDK constructs and patterns used\n            3. **Architecture Design**: Describe the resulting AWS architecture\n            4. **Best Practices**: Compare against CDK and AWS best practices\n            5. **Code Quality**: Suggest code improvements and optimizations\n            6. **Deployment Considerations**: Discuss deployment strategies\n            "

def promptClosing : String :=
  "\n        \n        Please be specific about AWS services, configurations, and provide actionable recommendations.\n        Highlight any security concerns, cost optimization opportunities, and compliance considerations.\n        Format your response with clear sections and bullet points for easy reading.\n        "

/-- The `if/elif` chain appending a format-specific instruction block
(nothing for `yaml`, `json`, `text` and unknown formats). -/
def promptBlock (file_type : String) : String :=
  if file_type == "aws_cli_output" then cliPromptBlock
  else if file_type == "cloudformation" then cfPromptBlock
  else if file_type == "terraform" then tfPromptBlock
  else if file_type == "cdk" then cdkPromptBlock
  else ""

/-- Model of `generate_analysis_prompt`. -/
def generate_analysis_prompt (parsed_data : Record) : String :=
  let file_type := parsed_data.file_type
  let content := parsed_data.content
  promptPre file_type ++ content ++ promptFence ++ promptBlock file_type ++
    promptClosing

/-- Stand-in for the external YAML/JSON libraries in concrete witnesses
whose branch never consults them (or where both parsers fail). -/
def stubLibs : PyLibs := ⟨fun _ => .error "yaml error", fun _ => .error "json error"⟩

/-- External-library stand-in for the C3 counterexample: the YAML load of
the counterexample template, as PyYAML parses it (`B: 5` is an int). -/
def cexLibs : PyLibs :=
  ⟨fun _ => .ok (.dict [("Resources", .dict
      [("A", .dict [("Type", .str "AWS::S3::Bucket")]), ("B", .int 5)])]),
   fun _ => .error "Expecting value: line 1 column 1 (char 0)"⟩

/-- External-library stand-in for the C3 witness: the YAML load of the
claim's own example template. -/
def exLibs : PyLibs :=
  ⟨fun _ => .ok (.dict [("Resources", .dict
      [("MyBucket", .dict [("Type", .str "AWS::S3::Bucket")])])]),
   fun _ => .error "Expecting value: line 1 column 1 (char 0)"⟩

/-- Every resource in the `Resources` mapping is itself a mapping whose
`Type`, when present, is a string — exactly the inputs on which the
`aws_services` loop of `_parse_cloudformation` cannot raise. -/
def cfResourcesWellFormed (items : List (String × PyValue)) : Bool :=
  items.all (fun kv =>
    match kv.2 with
    | .dict rkvs =>
      match (pyDictLookup "Type" rkvs).getD (.str "") with
      | .str _ => true
      | _ => false
    | _ => false)

/-! General lemmas -/

theorem append_left_ne_empty (a b : String) (h : 0 < a.length) : a ++ b ≠ "" := by
  intro hab
  have hl := congrArg String.length hab
  rw [String.length_append] at hl
  have h0 : ("" : String).length = 0 := rfl
  omega

theorem mem_setAdd_self (s : List String) (x : String) : x ∈ setAdd s x := by
  unfold setAdd
  split
  · exact List.mem_of_elem_eq_true (by assumption)
  · exact List.mem_append_right _ (by simp)

theorem mem_setAdd_of_mem {s : List String} {y : String} (x : String)
    (h : y ∈ s) : y ∈ setAdd s x := by
  unfold setAdd
  split
  · exact h
  · exact List.mem_append_left _ h

/-- The classifier only ever produces the seven format tags. -/
theorem detect_file_type_mem (c f : String) :
    detect_file_type c f ∈
      (["cloudformation", "terraform", "cdk", "aws_cli_output",
        "yaml", "json", "text"] : List String) := by
  simp only [detect_file_type]
  repeat' split
  all_goals simp

/-! Claim C2 -/

/-- Claim C2: content containing both a CloudFormation indicator and a
Terraform indicator is classified `cloudformation` — the CloudFormation
test runs first and wins every tie. -/
theorem cf_beats_tf (c f : String)
    (h1 : is_cloudformation c = true) (h2 : is_terraform c = true) :
    detect_file_type c f = "cloudformation" := by
  unfold detect_file_type
  simp [h1]

/-- Witness for C2 at concrete content holding a CloudFormation indicator
(`Resources:`) and a Terraform indicator (`resource "aws_`). -/
theorem cf_beats_tf_witness :
    is_cloudformation "Resources:\nresource \"aws_instance\" \"x\"" = true ∧
      is_terraform "Resources:\nresource \"aws_instance\" \"x\"" = true ∧
      detect_file_type "Resources:\nresource \"aws_instance\" \"x\"" "main.tf" =
        "cloudformation" :=
  ⟨by decide, by decide,
    cf_beats_tf "Resources:\nresource \"aws_instance\" \"x\"" "main.tf"
      (by decide) (by decide)⟩

/-! Claim C7 -/

/-- Counterexample to C7 as stated: content that has a CDK indicator
(`import * as cdk`) with a `.yaml` filename is classified `cloudformation`,
not `Yaml`, when it also contains a CloudFormation indicator — the earlier
tests preempt the extension fallback. -/
theorem cdk_yaml_counterexample :
    (cdk_indicators.any (fun i => hasSub "Resources:\nimport * as cdk" i)) = true ∧
      getExtension "a.yaml" = ".yaml" ∧
      detect_file_type "Resources:\nimport * as cdk" "a.yaml" = "cloudformation" := by
  refine ⟨by decide, by decide, by decide⟩

/-- Claim C7 (amended): with a `.yaml` extension the classifier never
returns `cdk` (the CDK test requires a `.ts`/`.js`/`.py` extension), and it
returns `yaml` provided no CloudFormation, Terraform or CLI indicator
preempts the extension fallback. -/
theorem cdk_requires_code_extension (c f : String)
    (hcdk : (cdk_indicators.any (fun i => hasSub c i)) = true)
    (hext : getExtension f = ".yaml") :
    detect_file_type c f ≠ "cdk" ∧
      (is_cloudformation c = false → is_terraform c = false →
        is_aws_cli_output c = false → detect_file_type c f = "yaml") := by
  have hcdkf : is_cdk c ".yaml" = false := rfl
  constructor
  · simp only [detect_file_type, hext, hcdkf]
    repeat' split
    all_goals simp_all
  · intro h1 h2 h3
    simp only [detect_file_type, hext, hcdkf, h1, h2, h3]
    decide

/-- Witness for C7 (amended) at content holding only a CDK indicator. -/
theorem cdk_requires_code_extension_witness :
    detect_file_type "import * as cdk" "a.yaml" ≠ "cdk" ∧
      detect_file_type "import * as cdk" "a.yaml" = "yaml" :=
  ⟨(cdk_requires_code_extension "import * as cdk" "a.yaml" (by decide) (by decide)).1,
    (cdk_requires_code_extension "import * as cdk" "a.yaml" (by decide) (by decide)).2
      (by decide) (by decide) (by decide)⟩

/-! Claim C8 -/

/-- Claim C8: the composed prompt depends only on the record's `file_type`
and `content` fields; records agreeing there yield byte-identical prompts. -/
theorem prompt_depends_only_on_format_and_content (r1 r2 : Record)
    (hft : r1.file_type = r2.file_type) (hc : r1.content = r2.content) :
    generate_analysis_prompt r1 = generate_analysis_prompt r2 := by
  unfold generate_analysis_prompt
  rw [hft, hc]

/-- Witness for C8: two records sharing `file_type`/`content` but differing
in `resources`, `aws_services`, `error` and `filename` compose identically. -/
theorem prompt_depends_only_on_format_and_content_witness :
    generate_analysis_prompt (initRecord "terraform" "a.tf" "resource") =
      generate_analysis_prompt
        { initRecord "terraform" "b.tf" "resource" with
            resources := ["x"], aws_services := ["s3"], error := some "boom" } :=
  prompt_depends_only_on_format_and_content _ _ rfl rfl

/-! Frame and error lemmas for the sub-parsers -/

theorem cfTail_frame (parsed : PyValue) (r : Record) :
    (cfTail parsed r).content = r.content ∧ (cfTail parsed r).filename = r.filename ∧
      (cfTail parsed r).resources = r.resources ∧
      (cfTail parsed r).aws_services = r.aws_services := by
  unfold cfTail
  repeat' split
  all_goals simp

theorem cfTail_error (parsed : PyValue) (r : Record) :
    (cfTail parsed r).error = r.error ∨
      ∃ e, (cfTail parsed r).error = some (cfMsg e) := by
  unfold cfTail
  repeat' split
  all_goals simp

theorem parse_cloudformation_frame (P : PyLibs) (c : String) (r : Record) :
    (parse_cloudformation P c r).content = r.content ∧
      (parse_cloudformation P c r).filename = r.filename := by
  unfold parse_cloudformation
  repeat' split
  all_goals simp [cfTail_frame]

theorem parse_cloudformation_error (P : PyLibs) (c : String) (r : Record) :
    (parse_cloudformation P c r).error = r.error ∨
      ∃ e, (parse_cloudformation P c r).error = some (cfMsg e) := by
  unfold parse_cloudformation
  repeat' split
  all_goals first
    | (apply cfTail_error)
    | simp

theorem parse_terraform_frame (c : String) (r : Record) :
    (parse_terraform c r).content = r.content ∧
      (parse_terraform c r).filename = r.filename ∧
      (parse_terraform c r).error = r.error := by
  simp [parse_terraform]

theorem parse_cdk_frame (c : String) (r : Record) :
    (parse_cdk c r).content = r.content ∧ (parse_cdk c r).filename = r.filename ∧
      (parse_cdk c r).error = r.error := by
  simp [parse_cdk]

theorem parse_aws_cli_output_frame (c : String) (r : Record) :
    (parse_aws_cli_output c r).content = r.content ∧
      (parse_aws_cli_output c r).filename = r.filename ∧
      (parse_aws_cli_output c r).error = r.error := by
  simp [parse_aws_cli_output]

theorem parse_yaml_frame (P : PyLibs) (c : String) (r : Record) :
    (parse_yaml P c r).content = r.content ∧ (parse_yaml P c r).filename = r.filename := by
  unfold parse_yaml
  repeat' split
  all_goals simp

theorem parse_yaml_error (P : PyLibs) (c : String) (r : Record) :
    (parse_yaml P c r).error = r.error ∨
      ∃ e, (parse_yaml P c r).error = some ("Failed to parse YAML: " ++ e) := by
  unfold parse_yaml
  repeat' split
  all_goals simp

theorem parse_json_frame (P : PyLibs) (c : String) (r : Record) :
    (parse_json P c r).content = r.content ∧ (parse_json P c r).filename = r.filename := by
  unfold parse_json
  repeat' split
  all_goals simp

theorem parse_json_error (P : PyLibs) (c : String) (r : Record) :
    (parse_json P c r).error = r.error ∨
      ∃ e, (parse_json P c r).error = some ("Failed to parse JSON: " ++ e) := by
  unfold parse_json
  repeat' split
  all_goals simp

theorem parse_text_frame (c : String) (r : Record) :
    (parse_text c r).content = r.content ∧ (parse_text c r).filename = r.filename ∧
      (parse_text c r).error = r.error := by
  simp [parse_text]

theorem parse_content_frame (P : PyLibs) (c f : String) :
    (parse_content P c f).content = c ∧ (parse_content P c f).filename = f := by
  have hmem := detect_file_type_mem c f
  simp only [List.mem_cons, List.not_mem_nil, or_false] at hmem
  rcases hmem with h | h | h | h | h | h | h <;>
    simp only [parse_content, h] <;>
    simp [parse_cloudformation_frame, parse_terraform_frame, parse_cdk_frame,
      parse_aws_cli_output_frame, parse_yaml_frame, parse_json_frame,
      parse_text_frame, initRecord]

/-- Every composed prompt embeds the record's raw content verbatim as a
contiguous substring. -/
theorem prompt_contains_content (r : Record) :
    ∃ pre post, generate_analysis_prompt r = pre ++ r.content ++ post := by
  refine ⟨promptPre r.file_type,
    promptFence ++ promptBlock r.file_type ++ promptClosing, ?_⟩
  unfold generate_analysis_prompt
  simp [String.append_assoc]

theorem prompt_ne_empty (r : Record) : generate_analysis_prompt r ≠ "" := by
  unfold generate_analysis_prompt promptPre
  intro h
  have hl := congrArg String.length h
  repeat rw [String.length_append] at hl
  have h1 : (0:Nat) < ("\n        Analyze the following " : String).length := by decide
  have h0 : ("" : String).length = 0 := rfl
  omega

/-! Claim C9 -/

/-- Claim C9: the extraction record returns the input `content` and
`filename` unchanged in every branch, error cases included, and the
composed prompt embeds the raw content verbatim as a contiguous substring,
with no truncation. -/
theorem extractor_preserves_raw_content (P : PyLibs) (c f : String) :
    (parse_content P c f).content = c ∧ (parse_content P c f).filename = f ∧
      ∃ pre post, generate_analysis_prompt (parse_content P c f) = pre ++ c ++ post := by
  obtain ⟨h1, h2⟩ := parse_content_frame P c f
  refine ⟨h1, h2, ?_⟩
  obtain ⟨pre, post, hp⟩ := prompt_contains_content (parse_content P c f)
  rw [h1] at hp
  exact ⟨pre, post, hp⟩

/-! Claim C10 -/

theorem parse_content_total_branch_no_error (P : PyLibs) (c f : String)
    (h : detect_file_type c f = "terraform" ∨ detect_file_type c f = "cdk" ∨
      detect_file_type c f = "aws_cli_output" ∨ detect_file_type c f = "text") :
    (parse_content P c f).error = Option.none := by
  rcases h with h | h | h | h <;>
    simp only [parse_content, h] <;>
    simp [parse_terraform_frame, parse_cdk_frame, parse_aws_cli_output_frame,
      parse_text_frame, initRecord]

/-- Claim C10: the Terraform, CDK, AWS-CLI and plain-text branches never
set `error` (they are total scans), so `error` can arise only for inputs
classified `cloudformation`, `yaml` or `json`. -/
theorem total_branches_never_error (P : PyLibs) (c f : String) :
    ((detect_file_type c f = "terraform" ∨ detect_file_type c f = "cdk" ∨
        detect_file_type c f = "aws_cli_output" ∨ detect_file_type c f = "text") →
      (parse_content P c f).error = Option.none) ∧
      ((parse_content P c f).error ≠ Option.none →
        detect_file_type c f = "cloudformation" ∨ detect_file_type c f = "yaml" ∨
          detect_file_type c f = "json") := by
  refine ⟨parse_content_total_branch_no_error P c f, ?_⟩
  intro hne
  have hmem := detect_file_type_mem c f
  simp only [List.mem_cons, List.not_mem_nil, or_false] at hmem
  rcases hmem with h | h | h | h | h | h | h
  · exact Or.inl h
  · exact absurd (parse_content_total_branch_no_error P c f (Or.inl h)) hne
  · exact absurd (parse_content_total_branch_no_error P c f (Or.inr (Or.inl h))) hne
  · exact absurd (parse_content_total_branch_no_error P c f (Or.inr (Or.inr (Or.inl h)))) hne
  · exact Or.inr (Or.inl h)
  · exact Or.inr (Or.inr h)
  · exact absurd (parse_content_total_branch_no_error P c f (Or.inr (Or.inr (Or.inr h)))) hne

/-- Witness for C10 on concrete AWS CLI output. -/
theorem total_branches_never_error_witness :
    (parse_content stubLibs "SUBNETS\tx" "a.txt").error = Option.none :=
  (total_branches_never_error stubLibs "SUBNETS\tx" "a.txt").1
    (Or.inr (Or.inr (Or.inl (by decide))))
/-! Dispatch lemmas: `parse_content` under a known classification -/

theorem parse_content_eq_cf (P : PyLibs) (c f : String)
    (h : detect_file_type c f = "cloudformation") :
    parse_content P c f = parse_cloudformation P c (initRecord "cloudformation" f c) := by
  simp [parse_content, h]

theorem parse_content_eq_tf (P : PyLibs) (c f : String)
    (h : detect_file_type c f = "terraform") :
    parse_content P c f = parse_terraform c (initRecord "terraform" f c) := by
  simp [parse_content, h]

theorem parse_content_eq_cdk (P : PyLibs) (c f : String)
    (h : detect_file_type c f = "cdk") :
    parse_content P c f = parse_cdk c (initRecord "cdk" f c) := by
  simp [parse_content, h]

theorem parse_content_eq_cli (P : PyLibs) (c f : String)
    (h : detect_file_type c f = "aws_cli_output") :
    parse_content P c f = parse_aws_cli_output c (initRecord "aws_cli_output" f c) := by
  simp [parse_content, h]

theorem parse_content_eq_yaml (P : PyLibs) (c f : String)
    (h : detect_file_type c f = "yaml") :
    parse_content P c f = parse_yaml P c (initRecord "yaml" f c) := by
  simp [parse_content, h]

theorem parse_content_eq_json (P : PyLibs) (c f : String)
    (h : detect_file_type c f = "json") :
    parse_content P c f = parse_json P c (initRecord "json" f c) := by
  simp [parse_content, h]

theorem parse_content_eq_text (P : PyLibs) (c f : String)
    (h : detect_file_type c f = "text") :
    parse_content P c f = parse_text c (initRecord "text" f c) := by
  simp [parse_content, h]

/-! Claim C1 -/

/-- Claim C1: `parse_content` always returns a record (the function is
total); whenever it reports an error the message is non-empty, and each
format-specific parse failure is captured into `error` with the documented
message instead of propagating: the CloudFormation branch records the JSON
fallback's message when both loads fail, and the generic YAML/JSON branches
record their library's message. -/
theorem extractor_never_raises (P : PyLibs) (c f : String) :
    ((parse_content P c f).error = Option.none ∨
      ∃ m, (parse_content P c f).error = some m ∧ m ≠ "") ∧
    (detect_file_type c f = "cloudformation" → ∀ e1 e2,
      P.yamlLoad c = .error e1 → P.jsonLoads c = .error e2 →
      (parse_content P c f).error = some (cfMsg e2)) ∧
    (detect_file_type c f = "yaml" → ∀ e, P.yamlLoad c = .error e →
      (parse_content P c f).error = some ("Failed to parse YAML: " ++ e)) ∧
    (detect_file_type c f = "json" → ∀ e, P.jsonLoads c = .error e →
      (parse_content P c f).error = some ("Failed to parse JSON: " ++ e)) := by
  refine ⟨?_, ?_, ?_, ?_⟩
  · have hmem := detect_file_type_mem c f
    simp only [List.mem_cons, List.not_mem_nil, or_false] at hmem
    rcases hmem with h | h | h | h | h | h | h
    · rw [parse_content_eq_cf P c f h]
      rcases parse_cloudformation_error P c (initRecord "cloudformation" f c)
        with he | ⟨e, he⟩
      · left; rw [he]; rfl
      · right; exact ⟨cfMsg e, he, append_left_ne_empty _ _ (by decide)⟩
    · exact Or.inl (parse_content_total_branch_no_error P c f (Or.inl h))
    · exact Or.inl (parse_content_total_branch_no_error P c f (Or.inr (Or.inl h)))
    · exact Or.inl
        (parse_content_total_branch_no_error P c f (Or.inr (Or.inr (Or.inl h))))
    · rw [parse_content_eq_yaml P c f h]
      rcases parse_yaml_error P c (initRecord "yaml" f c) with he | ⟨e, he⟩
      · left; rw [he]; rfl
      · right
        exact ⟨"Failed to parse YAML: " ++ e, he, append_left_ne_empty _ _ (by decide)⟩
    · rw [parse_content_eq_json P c f h]
      rcases parse_json_error P c (initRecord "json" f c) with he | ⟨e, he⟩
      · left; rw [he]; rfl
      · right
        exact ⟨"Failed to parse JSON: " ++ e, he, append_left_ne_empty _ _ (by decide)⟩
    · exact Or.inl
        (parse_content_total_branch_no_error P c f (Or.inr (Or.inr (Or.inr h))))
  · intro hd e1 e2 hy hj
    rw [parse_content_eq_cf P c f hd]
    have hload : cfTryLoad P c = .error e2 := by
      simp [cfTryLoad, hy, hj]
    simp [parse_cloudformation, hload]
  · intro hd e hy
    rw [parse_content_eq_yaml P c f hd]
    simp [parse_yaml, hy]
  · intro hd e hj
    rw [parse_content_eq_json P c f hd]
    simp [parse_json, hj]

/-- Witness for C1: with both libraries failing on CloudFormation-classified
content, the JSON message is captured into `error`. -/
theorem extractor_never_raises_witness :
    (parse_content stubLibs "Resources:" "t.json").error =
      some (cfMsg "json error") :=
  (extractor_never_raises stubLibs "Resources:" "t.json").2.1 (by decide)
    "yaml error" "json error" rfl rfl

/-! Claim C6 -/

/-- Claim C6: CloudFormation-classified content on which both the YAML and
the JSON load fail yields a record with a non-empty `error`, empty
`resources`, and the composed prompt is still non-empty and embeds the raw
content verbatim. -/
theorem malformed_cloudformation_graceful (P : PyLibs) (c f e1 e2 : String)
    (hd : detect_file_type c f = "cloudformation")
    (hy : P.yamlLoad c = .error e1) (hj : P.jsonLoads c = .error e2) :
    ∃ m, (parse_content P c f).error = some m ∧ m ≠ "" ∧
      (parse_content P c f).resources = [] ∧
      generate_analysis_prompt (parse_content P c f) ≠ "" ∧
      ∃ pre post, generate_analysis_prompt (parse_content P c f) = pre ++ c ++ post := by
  have hload : cfTryLoad P c = .error e2 := by
    simp [cfTryLoad, hy, hj]
  have hcf : parse_content P c f =
      { initRecord "cloudformation" f c with error := some (cfMsg e2) } := by
    rw [parse_content_eq_cf P c f hd]
    simp [parse_cloudformation, hload]
  refine ⟨cfMsg e2, ?_, ?_, ?_, prompt_ne_empty _, ?_⟩
  · rw [hcf]
  · exact append_left_ne_empty _ _ (by decide)
  · rw [hcf]; rfl
  · obtain ⟨pre, post, hp⟩ := prompt_contains_content (parse_content P c f)
    rw [(parse_content_frame P c f).1] at hp
    exact ⟨pre, post, hp⟩

/-- Witness for C6 on concrete malformed content. -/
theorem malformed_cloudformation_graceful_witness :
    ∃ m, (parse_content stubLibs "Resources: \x7b" "bad.json").error = some m ∧
      m ≠ "" ∧ (parse_content stubLibs "Resources: \x7b" "bad.json").resources = [] ∧
      generate_analysis_prompt (parse_content stubLibs "Resources: \x7b" "bad.json") ≠ "" ∧
      ∃ pre post,
        generate_analysis_prompt (parse_content stubLibs "Resources: \x7b" "bad.json") =
          pre ++ "Resources: \x7b" ++ post :=
  malformed_cloudformation_graceful stubLibs "Resources: \x7b" "bad.json"
    "yaml error" "json error" (by decide) rfl rfl

/-! Claim C4 -/

theorem tfSvcFold_mono :
    ∀ (l : List (String × String)) (acc : List String) (y : String),
      y ∈ acc → y ∈ l.foldl tfSvcStep acc := by
  intro l
  induction l with
  | nil => intro acc y h; simpa using h
  | cons p rest ih =>
    intro acc y h
    simp only [List.foldl_cons]
    apply ih
    unfold tfSvcStep
    split
    · exact mem_setAdd_of_mem _ h
    · exact h

theorem tfSvcFold_mem :
    ∀ (l : List (String × String)) (p : String × String), p ∈ l →
      pyStartsWith p.1 "aws_" = true → ∀ acc : List String,
      tfServiceOf p.1 ∈ l.foldl tfSvcStep acc := by
  intro l
  induction l with
  | nil => intro p hp; cases hp
  | cons q rest ih =>
    intro p hp hs acc
    rcases List.mem_cons.mp hp with h | h
    · subst h
      simp only [List.foldl_cons]
      apply tfSvcFold_mono
      unfold tfSvcStep
      rw [hs]
      simp only [if_true]
      exact mem_setAdd_self _ _
    · simp only [List.foldl_cons]
      exact ih p h hs _

/-- Claim C4 (amended): for Terraform-classified content, `resources` is
exactly the `"TYPE.NAME"` string of every `resource "TYPE" "NAME"` match in
source order (duplicates preserved), and for every matched `TYPE` starting
with `aws_`, `aws_services` contains the first underscore-separated segment
of the string obtained by deleting every occurrence of `aws_` from `TYPE`
(the source uses `replace('aws_', '')`, not a prefix strip). -/
theorem terraform_extraction (P : PyLibs) (c f : String)
    (hd : detect_file_type c f = "terraform") :
    (parse_content P c f).resources =
      (reFindAll tfResourceMatch c : List (String × String)).map
        (fun p => p.1 ++ "." ++ p.2) ∧
      ∀ p : String × String, p ∈ (reFindAll tfResourceMatch c : List (String × String)) →
        pyStartsWith p.1 "aws_" = true →
        tfServiceOf p.1 ∈ (parse_content P c f).aws_services := by
  rw [parse_content_eq_tf P c f hd]
  constructor
  · simp [parse_terraform]
  · intro p hp hs
    have hsvc : (parse_terraform c (initRecord "terraform" f c)).aws_services =
        (reFindAll tfResourceMatch c : List (String × String)).foldl tfSvcStep [] := by
      simp [parse_terraform]
    rw [hsvc]
    exact tfSvcFold_mem _ p hp hs []

/-- Counterexample to C4 as stated: for `TYPE = "aws_aws_db"` the segment of
`TYPE` between the `aws_` prefix and the next underscore is `"aws"`, but the
code's `replace('aws_', '')` deletes both occurrences and records `"db"`. -/
theorem terraform_service_counterexample :
    detect_file_type "resource \"aws_aws_db\" \"x\"" "main.tf" = "terraform" ∧
      (parse_content stubLibs "resource \"aws_aws_db\" \"x\"" "main.tf").resources =
        ["aws_aws_db.x"] ∧
      (parse_content stubLibs "resource \"aws_aws_db\" \"x\"" "main.tf").aws_services =
        ["db"] ∧
      "aws" ∉ (parse_content stubLibs "resource \"aws_aws_db\" \"x\"" "main.tf").aws_services := by
  refine ⟨by decide, by decide, by decide, by decide⟩

/-- Witness for C4 (amended) on the claim's own example. -/
theorem terraform_extraction_witness :
    (parse_content stubLibs
        "resource \"aws_instance\" \"web\" \x7b\x7d\nresource \"aws_s3_bucket\" \"data\" \x7b\x7d"
        "main.tf").resources = ["aws_instance.web", "aws_s3_bucket.data"] ∧
      "instance" ∈ (parse_content stubLibs
        "resource \"aws_instance\" \"web\" \x7b\x7d\nresource \"aws_s3_bucket\" \"data\" \x7b\x7d"
        "main.tf").aws_services ∧
      "s3" ∈ (parse_content stubLibs
        "resource \"aws_instance\" \"web\" \x7b\x7d\nresource \"aws_s3_bucket\" \"data\" \x7b\x7d"
        "main.tf").aws_services := by
  have h := terraform_extraction stubLibs
    "resource \"aws_instance\" \"web\" \x7b\x7d\nresource \"aws_s3_bucket\" \"data\" \x7b\x7d"
    "main.tf" (by decide)
  refine ⟨?_, ?_, ?_⟩
  · rw [h.1]; decide
  · have hm := h.2 ("aws_instance", "web") (by decide) (by decide)
    have hsv : tfServiceOf "aws_instance" = "instance" := by decide
    rwa [hsv] at hm
  · have hm := h.2 ("aws_s3_bucket", "data") (by decide) (by decide)
    have hsv : tfServiceOf "aws_s3_bucket" = "s3" := by decide
    rwa [hsv] at hm
/-! Claim C3 -/

theorem pyDictLookup_any {kvs : List (String × PyValue)} {k : String}
    {v : PyValue} (h : pyDictLookup k kvs = some v) :
    (kvs.any (fun p => p.1 == k)) = true := by
  induction kvs with
  | nil => simp [pyDictLookup] at h
  | cons p rest ih =>
    obtain ⟨pk, pv⟩ := p
    simp only [pyDictLookup] at h
    split at h
    · next heq =>
      have hk : k = pk := by simpa using heq
      subst hk
      simp
    · simp only [List.any_cons, Bool.or_eq_true]
      exact Or.inr (ih h)

theorem cfCollect_ok :
    ∀ (items : List (String × PyValue)) (acc : List String),
      cfResourcesWellFormed items = true →
      ∃ res, cfCollectServices items acc = .ok res := by
  intro items
  induction items with
  | nil => intro acc _; exact ⟨acc, rfl⟩
  | cons kv rest ih =>
    intro acc hwf
    obtain ⟨k, cfg⟩ := kv
    simp only [cfResourcesWellFormed, List.all_cons, Bool.and_eq_true] at hwf
    obtain ⟨hhd, hrest⟩ := hwf
    cases cfg with
    | dict rkvs =>
      have hhd' : (match (pyDictLookup "Type" rkvs).getD (.str "") with
          | PyValue.str _ => true
          | _ => false) = true := hhd
      cases ht : (pyDictLookup "Type" rkvs).getD (.str "") with
      | str ts =>
        simp only [cfCollectServices, pyGet, ht]
        split
        · exact ih _ hrest
        · exact ih _ hrest
      | int n => rw [ht] at hhd'; simp at hhd'
      | bool b => rw [ht] at hhd'; simp at hhd'
      | none => rw [ht] at hhd'; simp at hhd'
      | list xs => rw [ht] at hhd'; simp at hhd'
      | dict d => rw [ht] at hhd'; simp at hhd'
    | str s => simp at hhd
    | int n => simp at hhd
    | bool b => simp at hhd
    | none => simp at hhd
    | list xs => simp at hhd

theorem cfCollect_mono :
    ∀ (items : List (String × PyValue)) (acc res : List String),
      cfCollectServices items acc = .ok res → ∀ y, y ∈ acc → y ∈ res := by
  intro items
  induction items with
  | nil =>
    intro acc res h y hy
    cases h
    exact hy
  | cons kv rest ih =>
    intro acc res h y hy
    obtain ⟨k, cfg⟩ := kv
    cases hg : pyGet cfg "Type" (.str "") with
    | error e => simp [cfCollectServices, hg] at h
    | ok t =>
      cases t with
      | str ts =>
        simp only [cfCollectServices, hg] at h
        split at h
        · exact ih _ _ h y (mem_setAdd_of_mem _ hy)
        · exact ih _ _ h y hy
      | int n => simp [cfCollectServices, hg] at h
      | bool b => simp [cfCollectServices, hg] at h
      | none => simp [cfCollectServices, hg] at h
      | list xs => simp [cfCollectServices, hg] at h
      | dict d => simp [cfCollectServices, hg] at h

theorem cfCollect_mem :
    ∀ (items : List (String × PyValue)) (acc res : List String)
      (k : String) (rkvs : List (String × PyValue)) (ts : String),
      cfCollectServices items acc = .ok res →
      (k, PyValue.dict rkvs) ∈ items →
      pyDictLookup "Type" rkvs = some (.str ts) →
      pyStartsWith ts "AWS::" = true →
      cfServiceOf ts ∈ res := by
  intro items
  induction items with
  | nil => intro _ _ _ _ _ _ hm; cases hm
  | cons kv rest ih =>
    intro acc res k rkvs ts h hm hl hs
    obtain ⟨k0, cfg⟩ := kv
    rcases List.mem_cons.mp hm with hh | hh
    · cases hh
      have hg : pyGet (PyValue.dict rkvs) "Type" (.str "") = .ok (.str ts) := by
        simp [pyGet, hl]
      simp only [cfCollectServices, hg, hs, if_true] at h
      exact cfCollect_mono rest _ res h _ (mem_setAdd_self _ _)
    · cases hg : pyGet cfg "Type" (.str "") with
      | error e => simp [cfCollectServices, hg] at h
      | ok t =>
        cases t with
        | str ts0 =>
          simp only [cfCollectServices, hg] at h
          split at h
          · exact ih _ _ k rkvs ts h hh hl hs
          · exact ih _ _ k rkvs ts h hh hl hs
        | int n => simp [cfCollectServices, hg] at h
        | bool b => simp [cfCollectServices, hg] at h
        | none => simp [cfCollectServices, hg] at h
        | list xs => simp [cfCollectServices, hg] at h
        | dict d => simp [cfCollectServices, hg] at h

/-- Claim C3 (amended): for CloudFormation-classified content whose YAML
load yields a mapping with a `Resources` mapping, **provided every resource
is itself a mapping whose `Type` (when present) is a string**, the record's
`resources` are the keys of the mapping in order, and for every resource
whose `Type` starts with `AWS::`, `aws_services` contains the second
`::`-separated segment of that `Type`. (Without the proviso the loop raises
mid-way and `aws_services` is left empty, see the counterexample.) -/
theorem cloudformation_extraction (P : PyLibs) (c f : String)
    (kvs items : List (String × PyValue))
    (hd : detect_file_type c f = "cloudformation")
    (hy : P.yamlLoad c = .ok (.dict kvs))
    (hres : pyDictLookup "Resources" kvs = some (.dict items))
    (hwf : cfResourcesWellFormed items = true) :
    (parse_content P c f).resources = items.map (fun kv => kv.1) ∧
      ∀ k rkvs ts, (k, PyValue.dict rkvs) ∈ items →
        pyDictLookup "Type" rkvs = some (.str ts) →
        pyStartsWith ts "AWS::" = true →
        cfServiceOf ts ∈ (parse_content P c f).aws_services := by
  rw [parse_content_eq_cf P c f hd]
  have hload : cfTryLoad P c = .ok (.dict kvs) := by
    simp [cfTryLoad, hy]
  have hin : pyInDyn "Resources" (.dict kvs) = .ok true := by
    simp only [pyInDyn, pyDictLookup_any hres]
  have hsub : pySubscript (.dict kvs) "Resources" = .ok (.dict items) := by
    simp [pySubscript, hres]
  obtain ⟨svcs, hcol⟩ := cfCollect_ok items [] hwf
  have hrec : parse_cloudformation P c (initRecord "cloudformation" f c) =
      cfTail (.dict kvs)
        { initRecord "cloudformation" f c with
            parsed_data := .dict kvs,
            resources := items.map (fun kv => kv.1),
            aws_services := svcs } := by
    simp only [parse_cloudformation, hload, hin, hsub, pyKeys, pyItems, hcol,
      if_true]
  rw [hrec]
  obtain ⟨-, -, hr, hs⟩ := cfTail_frame (PyValue.dict kvs)
    { initRecord "cloudformation" f c with
        parsed_data := .dict kvs,
        resources := items.map (fun kv => kv.1),
        aws_services := svcs }
  constructor
  · rw [hr]
  · intro k rkvs ts hm hl hst
    rw [hs]
    exact cfCollect_mem items [] svcs k rkvs ts hcol hm hl hst

/-- Counterexample to C3 as stated: a `Resources` mapping holding a second,
non-mapping resource (`B: 5`). The loop raises at `B` after `resources` was
already assigned, so the record keeps `resources = ["A", "B"]` but
`aws_services` stays empty — `"S3"` is missing although resource `A` has
`Type: AWS::S3::Bucket`. -/
theorem cloudformation_extraction_counterexample :
    detect_file_type "Resources:\n  A:\n    Type: AWS::S3::Bucket\n  B: 5" "t.yaml" =
        "cloudformation" ∧
      cexLibs.yamlLoad "Resources:\n  A:\n    Type: AWS::S3::Bucket\n  B: 5" =
        .ok (.dict [("Resources", .dict
          [("A", .dict [("Type", .str "AWS::S3::Bucket")]), ("B", .int 5)])]) ∧
      (parse_content cexLibs "Resources:\n  A:\n    Type: AWS::S3::Bucket\n  B: 5"
          "t.yaml").resources = ["A", "B"] ∧
      (parse_content cexLibs "Resources:\n  A:\n    Type: AWS::S3::Bucket\n  B: 5"
          "t.yaml").aws_services = [] ∧
      "S3" ∉ (parse_content cexLibs "Resources:\n  A:\n    Type: AWS::S3::Bucket\n  B: 5"
          "t.yaml").aws_services :=
  ⟨by decide, rfl, by decide, by decide, by decide⟩

/-- Witness for C3 (amended) on the claim's own example. -/
theorem cloudformation_extraction_witness :
    (parse_content exLibs "Resources: \x7bMyBucket: \x7bType: AWS::S3::Bucket\x7d\x7d"
        "t.yaml").resources = ["MyBucket"] ∧
      "S3" ∈ (parse_content exLibs
        "Resources: \x7bMyBucket: \x7bType: AWS::S3::Bucket\x7d\x7d" "t.yaml").aws_services := by
  have h := cloudformation_extraction exLibs
    "Resources: \x7bMyBucket: \x7bType: AWS::S3::Bucket\x7d\x7d" "t.yaml"
    [("Resources", .dict [("MyBucket", .dict [("Type", .str "AWS::S3::Bucket")])])]
    [("MyBucket", .dict [("Type", .str "AWS::S3::Bucket")])]
    (by decide) rfl rfl (by decide)
  refine ⟨?_, ?_⟩
  · rw [h.1]; rfl
  · have hm := h.2 "MyBucket" [("Type", PyValue.str "AWS::S3::Bucket")]
      "AWS::S3::Bucket" (List.Mem.head _) rfl (by decide)
    have hsv : cfServiceOf "AWS::S3::Bucket" = "S3" := by decide
    rwa [hsv] at hm

/-! Claim C5 -/

theorem listIsPref_head {a : Char} {as : List Char} {b : Char} {bs : List Char}
    (h : listIsPref (a :: as) (b :: bs) = true) : a = b := by
  simp only [listIsPref, Bool.and_eq_true, beq_iff_eq] at h
  exact h.1

/-- A stripped line starting with `SECURITYGROUPS` is not a section header
(headers start with `=== `). -/
theorem secgroups_not_header (s : String)
    (h : pyStartsWith s "SECURITYGROUPS" = true) :
    pyStartsWith s "=== " = false := by
  unfold pyStartsWith at h ⊢
  cases hs : s.data with
  | nil => rw [hs] at h; exact absurd h (by decide)
  | cons c rest =>
    rw [hs] at h
    have hc : 'S' = c := listIsPref_head h
    subst hc
    rfl

/-- A stripped line starting with `SECURITYGROUPS` is not blank. -/
theorem secgroups_not_blank (s : String)
    (h : pyStartsWith s "SECURITYGROUPS" = true) : (s == "") = false := by
  apply beq_eq_false_iff_ne.mpr
  intro hcontra
  rw [hcontra] at h
  exact absurd h (by decide)

/-- Per-line behaviour of the scanner in a `security` section (claim C5
amended): the `vpc` and `subnet` tests run first in the `elif` chain, so the
section label must avoid those substrings for the `security` branch to run;
then every `SECURITYGROUPS` line with more than two tab fields appends
`{id: field 1, name: field 2}` and adds `EC2`. -/
theorem cliStep_security (st : CliState) (cs l : String)
    (hsec : st.currentSection = some cs)
    (h1 : hasSub cs "security" = true)
    (h2 : hasSub cs "vpc" = false)
    (h3 : hasSub cs "subnet" = false)
    (h4 : pyStartsWith (pyStrip l) "SECURITYGROUPS" = true)
    (h5 : 2 < (pySplit "\t" (pyStrip l)).length) :
    (cliStep st l).security_groups =
      st.security_groups ++
        [⟨(pySplit "\t" (pyStrip l)).getD 1 "unknown",
          (pySplit "\t" (pyStrip l)).getD 2 "unknown"⟩] ∧
      "EC2" ∈ (cliStep st l).services := by
  have hhdr : (pyStartsWith (pyStrip l) "=== " && pyEndsWith (pyStrip l) " ===") = false := by
    rw [secgroups_not_header _ h4]
    rfl
  have hbl := secgroups_not_blank _ h4
  have hproc : cliProcess st cs (pyStrip l) =
      { st with services := setAdd st.services "EC2",
                security_groups := st.security_groups ++
                  [⟨(pySplit "\t" (pyStrip l)).getD 1 "unknown",
                    (pySplit "\t" (pyStrip l)).getD 2 "unknown"⟩] } := by
    simp [cliProcess, h1, h2, h3, h4, h5]
  have hstep : cliStep st l = cliProcess st cs (pyStrip l) := by
    simp [cliStep, hhdr, hbl, hsec]
  rw [hstep, hproc]
  exact ⟨rfl, mem_setAdd_self _ _⟩

/-- The scan only ever appends to `security_groups` (single line). -/
theorem cliProcess_sg_eq (st : CliState) (cs line : String) :
    (cliProcess st cs line).security_groups = st.security_groups ∨
      (cliProcess st cs line).security_groups = st.security_groups ++
        [⟨(pySplit "\t" line).getD 1 "unknown",
          (pySplit "\t" line).getD 2 "unknown"⟩] := by
  simp only [cliProcess]
  repeat' split
  all_goals first
    | (left; rfl)
    | (right; rfl)

theorem cliStep_sg_eq (st : CliState) (l : String) :
    (cliStep st l).security_groups = st.security_groups ∨
      (cliStep st l).security_groups = st.security_groups ++
        [⟨(pySplit "\t" (pyStrip l)).getD 1 "unknown",
          (pySplit "\t" (pyStrip l)).getD 2 "unknown"⟩] := by
  unfold cliStep
  split
  all_goals dsimp only
  · split
    · left; rfl
    · split
      · left; rfl
      · exact cliProcess_sg_eq st _ _
  · split
    · left; rfl
    · split
      · left; rfl
      · left; rfl

theorem cliStep_sg_mono (st : CliState) (l : String) :
    ∃ tl, (cliStep st l).security_groups = st.security_groups ++ tl := by
  rcases cliStep_sg_eq st l with h | h
  · exact ⟨[], by rw [h, List.append_nil]⟩
  · exact ⟨_, h⟩

theorem cliRun_sg_mono :
    ∀ (lines : List String) (st : CliState),
      ∃ tl, (cliRun st lines).security_groups = st.security_groups ++ tl := by
  intro lines
  induction lines with
  | nil => intro st; exact ⟨[], by simp [cliRun]⟩
  | cons l rest ih =>
    intro st
    obtain ⟨t1, ht1⟩ := cliStep_sg_mono st l
    obtain ⟨t2, ht2⟩ := ih (cliStep st l)
    refine ⟨t1 ++ t2, ?_⟩
    have hrun : cliRun st (l :: rest) = cliRun (cliStep st l) rest := by
      simp [cliRun]
    rw [hrun, ht2, ht1, List.append_assoc]

/-- Claim C5 (amended). Part one: per-line behaviour in a section whose
label contains `security` but neither `vpc` nor `subnet` (the earlier
`elif` arms win otherwise). Part two: entries are only ever appended by the
scan. Part three: on AWS-CLI-classified content, `parse_content` exposes
exactly the scanner's accumulators. -/
theorem cli_security_group_extraction :
    (∀ (st : CliState) (cs l : String),
      st.currentSection = some cs →
      hasSub cs "security" = true → hasSub cs "vpc" = false →
      hasSub cs "subnet" = false →
      pyStartsWith (pyStrip l) "SECURITYGROUPS" = true →
      2 < (pySplit "\t" (pyStrip l)).length →
      (cliStep st l).security_groups =
        st.security_groups ++
          [⟨(pySplit "\t" (pyStrip l)).getD 1 "unknown",
            (pySplit "\t" (pyStrip l)).getD 2 "unknown"⟩] ∧
        "EC2" ∈ (cliStep st l).services) ∧
    (∀ (lines : List String) (st : CliState),
      ∃ tl, (cliRun st lines).security_groups = st.security_groups ++ tl) ∧
    (∀ (P : PyLibs) (c f : String), detect_file_type c f = "aws_cli_output" →
      (parse_content P c f).security_groups =
          (cliRun cliInit (pySplit "\n" (pyStrip c))).security_groups ∧
        (parse_content P c f).aws_services =
          (cliRun cliInit (pySplit "\n" (pyStrip c))).services) := by
  refine ⟨cliStep_security, cliRun_sg_mono, ?_⟩
  intro P c f hd
  rw [parse_content_eq_cli P c f hd]
  constructor <;> simp [parse_aws_cli_output]

/-- Counterexample to C5 as stated: the section `=== subnet security ===`
contains `security`, yet its `SECURITYGROUPS` line contributes nothing and
`EC2` is never added, because the `subnet` arm of the `elif` chain wins:
only `VPC` is recorded. -/
theorem cli_security_group_counterexample :
    detect_file_type "=== subnet security ===\nSECURITYGROUPS\tsg-1\tweb\tx" "o.txt" =
        "aws_cli_output" ∧
      hasSub "subnet security" "security" = true ∧
      (parse_content stubLibs "=== subnet security ===\nSECURITYGROUPS\tsg-1\tweb\tx"
          "o.txt").security_groups = [] ∧
      (parse_content stubLibs "=== subnet security ===\nSECURITYGROUPS\tsg-1\tweb\tx"
          "o.txt").aws_services = ["VPC"] ∧
      "EC2" ∉ (parse_content stubLibs "=== subnet security ===\nSECURITYGROUPS\tsg-1\tweb\tx"
          "o.txt").aws_services :=
  ⟨by decide, by decide, by decide, by decide, by decide⟩

/-- Witness for C5 (amended) on the claim's own example section. -/
theorem cli_security_group_extraction_witness :
    (parse_content stubLibs "=== Security Groups ===\nSECURITYGROUPS\tsg-123\tmy-sg\tx"
        "o.txt").security_groups = [⟨"sg-123", "my-sg"⟩] ∧
      "EC2" ∈ (parse_content stubLibs
        "=== Security Groups ===\nSECURITYGROUPS\tsg-123\tmy-sg\tx" "o.txt").aws_services := by
  have h := cli_security_group_extraction.2.2 stubLibs
    "=== Security Groups ===\nSECURITYGROUPS\tsg-123\tmy-sg\tx" "o.txt" (by decide)
  constructor
  · rw [h.1]; decide
  · rw [h.2]; decide
